import Mathlib

/-!
Verification of the react-tform form-state engine.

This file shallowly embeds the data model and operations of the repository
(error sets keyed by paths, the lens/field composition, the derived
form-state flags, and the validate/submit orchestration) as executable Lean
definitions, and proves or refutes the specified properties over them.

Conventions of the embedding:
* JavaScript `Date` timestamps are modelled as `Nat` ticks; each modelled
  operation receives the tick `now` it stamps into the state.
* Optional (`undefined`-able) TypeScript fields are `Option`s.
* A caller-supplied validate/submit function returning
  `FormErrors | void | PromiseLike<...>` is modelled as a pure function into
  `Except E (Option (List FormError))`: `Except.error` is a throw/rejection,
  `Except.ok none` is `void`/`undefined`, `Except.ok (some errs)` is a
  returned error array.  Awaiting is modelled by sequential composition.
-/

/-! ### Errors (src/src/errors.ts) -/

/-- One step of a form error path: `string | number` in the source. -/
inductive PathSeg where
  | str (s : String)
  | idx (n : Nat)
deriving DecidableEq, Repr

/-- `FormErrorPath` from errors.ts: `readonly (string | number)[]`. -/
abbrev FormErrorPath := List PathSeg

/-- `FormError` from errors.ts: message, optional path, optional temporary flag. -/
structure FormError where
  message : String
  path : Option FormErrorPath
  temporary : Option Bool
deriving DecidableEq, Repr

/-- One element of a `FormErrorInput`: `undefined | string | FormError`. -/
inductive FormErrorInputItem where
  | undef
  | str (s : String)
  | err (e : FormError)
deriving DecidableEq, Repr

/-- `FormErrorInput` from errors.ts:
`undefined | void | string | FormError | readonly (undefined | void | string | FormError)[]`.
A non-array input is `item`, an array input is `arr`. -/
inductive FormErrorInput where
  | item (i : FormErrorInputItem)
  | arr (xs : List FormErrorInputItem)
deriving DecidableEq, Repr

/-- Conversion of one input item, as done by the flatMap body of `buildErrors`
(errors.ts lines 24-35): `undefined` vanishes, a string becomes an error with
empty path and no temporary flag, an error passes through. -/
def buildErrorsItem (i : FormErrorInputItem) : List FormError :=
  match i with
  | FormErrorInputItem.undef => []
  | FormErrorInputItem.str s => [{ message := s, path := some [], temporary := none }]
  | FormErrorInputItem.err e => [e]

/-- `buildErrors` from errors.ts lines 23-36: `[inputs].flat().flatMap(...)`. -/
def buildErrors (inputs : FormErrorInput) : List FormError :=
  match inputs with
  | FormErrorInput.item i => buildErrorsItem i
  | FormErrorInput.arr xs => xs.flatMap buildErrorsItem

/-- `descendErrors` from errors.ts lines 74-76:
`errors.filter(_ => equals((_.path ?? []).slice(0, path.length), path ?? []))
       .map(error => ({ ...error, path: (error.path ?? []).slice(path.length) }))`. -/
def descendErrors (errors : List FormError) (path : FormErrorPath) : List FormError :=
  (errors.filter fun e => decide ((e.path.getD []).take path.length = path)).map
    fun e => { e with path := some ((e.path.getD []).drop path.length) }

/-! ### Field composition (src/src/field.ts, the revision with `setErrors`,
lines 346-521 of the concatenated file) -/

/-- The error write-back of a derived field's `setErrors`
(field.ts lines 453-463): each written error's path is prefixed with
`operator.path ?? []` before being handed to the parent:
`newErrors.map(error => ({ ...error, path: [...operator.path ?? [], ...error.path ?? []] }))`. -/
def setErrorsAscend (opPath : Option FormErrorPath) (newErrors : List FormError) :
    List FormError :=
  newErrors.map fun e => { e with path := some ((opPath.getD []) ++ (e.path.getD [])) }

/-- The derived field's error set computed by `doPipe`
(field.ts line 452): `descendErrors(this.errors ?? [], operator.path ?? [])`.
A bare-function operator is wrapped as `{ operator }` (line 441-443), so its
`operator.path` is `none`. -/
def doPipeErrors (parentErrors : Option (List FormError)) (opPath : Option FormErrorPath) :
    List FormError :=
  descendErrors (parentErrors.getD []) (opPath.getD [])

/-- The derived field's `path` computed by `doPipe` (field.ts line 465):
`path: [...this.path, ...this.path !== undefined ? this.path : []]`.
Note that the source spreads `this.path` twice and never uses `operator.path`;
the second argument is therefore unused, exactly as in the source. -/
def doPipePath (parentPath : FormErrorPath) (opPath : Option FormErrorPath) : FormErrorPath :=
  let _ := opPath
  parentPath ++ parentPath

/-- The path contributed by the `prop` operator (field.ts lines 483-488):
`{ operator: lensProp(key), path: [key] }`. -/
def propOperatorPath (key : String) : Option FormErrorPath :=
  some [PathSeg.str key]

/-! ### The `prop` lens (ramda `lensProp` as used by `FormField.prop`).
A record value is modelled extensionally as a total map from property names
to values, which is what a TypeScript record is at the keys its type
declares. -/

/-- A JavaScript record with values of type `V`. -/
abbrev JsRecord (V : Type) := String → V

/-- `view(lensProp(k), r)`: property read `r[k]`. -/
def viewProp {V : Type} (k : String) (r : JsRecord V) : V :=
  r k

/-- `set(lensProp(k), v, r)`: property write `{...r, [k]: v}`. -/
def setProp {V : Type} (k : String) (v : V) (r : JsRecord V) : JsRecord V :=
  fun kk => if kk = k then v else r kk

/-! ### Form state (src/src/state.ts) and the orchestrator (src/src/form.ts) -/

/-- Exceptions that can land in the form state's `exception` slot in
src/src/form.ts: either the deterministic `new Error("Can not submit a form
that is disabled.")` (form.ts lines 98-100) or an exception thrown by a
caller-supplied function. -/
inductive FormExc (E : Type) where
  | disabled
  | caller (e : E)
deriving DecidableEq, Repr

/-- The slice of `FormInternalState` (src/src/state.ts lines 9-62) read and
written by the orchestration functions of src/src/form.ts, plus the
`isSubmitting`, `lastValidated` and `validateRequests` fields that form.ts
patches into the state. -/
structure FormStateSrc (V E : Type) where
  value : V
  initializedValue : V
  errors : List FormError
  isValid : Option Bool
  submittedValue : Option V
  submitCount : Nat
  exception : Option (FormExc E)
  lastValidated : Option Nat
  lastValidateStarted : Option Nat
  lastSubmitted : Option Nat
  isSubmitting : Option Bool
  validateRequests : Int

/-- The options of src/src/options.ts consumed by the orchestration functions
of src/src/form.ts: an optional validate function, a required submit
function, and the `disabled` flag (`undefined` behaves as `false` in
`if (options.disabled)`, so it is a `Bool`). -/
structure FormOptionsSrc (V E : Type) where
  validate : Option (V → Except E (Option (List FormError)))
  submit : V → Except E (Option (List FormError))
  disabled : Bool

/-- `canSubmit` as derived in src/src/state.ts line 83:
`const canSubmit = state.isValid !== false`. -/
def canSubmitSrc {V E : Type} (s : FormStateSrc V E) : Bool :=
  decide (s.isValid ≠ some false)

/-- `isValidating` as derived in src/src/state.ts line 108:
`(state.lastValidateStarted?.getTime() ?? 0) > (state.lastValidateStarted?.getTime() ?? 0)`
(both operands read the same field). -/
def isValidatingSrc {V E : Type} (s : FormStateSrc V E) : Bool :=
  decide ((s.lastValidateStarted.getD 0) > (s.lastValidateStarted.getD 0))

/-- `canSubmit` as derived in src/unnamed/part_013 line 93 (and again at
line 209 of that file, and src/unnamed/part_014 line 84):
`!(state.errors ?? []).some(_ => _.temporary !== true)`. -/
def canSubmitP013 (errors : Option (List FormError)) : Bool :=
  !((errors.getD []).any fun e => decide (e.temporary ≠ some true))

/-- `doValidate` of src/src/form.ts lines 58-88, as a state transformer:
if a validate function is configured, run it; on success store
`lastValidated` and the returned errors (`?? []`); on a throw store the
exception; the `finally` block always subtracts the handled `requests` from
`validateRequests`. -/
def doValidateExec {V E : Type} (opts : FormOptionsSrc V E) (s : FormStateSrc V E)
    (requests : Int) (now : Nat) : FormStateSrc V E :=
  match opts.validate with
  | none => { s with validateRequests := s.validateRequests - requests }
  | some f =>
    match f s.value with
    | Except.ok eo =>
      { s with lastValidated := some now, errors := eo.getD [],
               validateRequests := s.validateRequests - requests }
    | Except.error e =>
      { s with exception := some (FormExc.caller e),
               validateRequests := s.validateRequests - requests }

/-- The tail of `doSubmit` (src/src/form.ts lines 114-133) once validation
has passed (or no validate function exists): run the submit function; on a
throw store the exception; otherwise store `lastValidated` and the errors,
and if they are empty advance `lastSubmitted`, `submitCount` and
`submittedValue`; the `finally` block clears `isSubmitting`. -/
def doSubmitRunSrc {V E : Type} (opts : FormOptionsSrc V E) (s0 : FormStateSrc V E)
    (now : Nat) : FormStateSrc V E × Bool :=
  match opts.submit s0.value with
  | Except.error e =>
    ({ s0 with exception := some (FormExc.caller e), isSubmitting := some false }, true)
  | Except.ok eo =>
    let errs := eo.getD []
    let s1 := { s0 with lastValidated := some now, errors := errs }
    if errs.length = 0 then
      ({ s1 with lastSubmitted := some now, submitCount := s1.submitCount + 1,
                 submittedValue := some s1.value, isSubmitting := some false }, true)
    else
      ({ s1 with isSubmitting := some false }, true)

/-- `doSubmit` of src/src/form.ts lines 92-154, as a state transformer.  The
returned `Bool` records whether the caller-supplied submit function was
invoked.  Control flow per the source: bail out if `!state.canSubmit`
(line 94); throw the disabled error if `options.disabled` (lines 98-100,
caught at line 136, `finally` at line 146); set `isSubmitting`; run the
validate function first and, only if it returns no errors, the submit
function (lines 107-115). -/
def doSubmitExec {V E : Type} (opts : FormOptionsSrc V E) (s : FormStateSrc V E)
    (now : Nat) : FormStateSrc V E × Bool :=
  if canSubmitSrc s = false then (s, false)
  else if opts.disabled then
    ({ s with exception := some FormExc.disabled, isSubmitting := some false }, false)
  else
    let s0 := { s with isSubmitting := some true }
    match opts.validate with
    | none => doSubmitRunSrc opts s0 now
    | some f =>
      match f s.value with
      | Except.error e =>
        ({ s0 with exception := some (FormExc.caller e), isSubmitting := some false }, false)
      | Except.ok eo =>
        let verrs := eo.getD []
        if verrs.length = 0 then doSubmitRunSrc opts s0 now
        else ({ s0 with lastValidated := some now, errors := verrs,
                        isSubmitting := some false }, false)

/-- The read of the form context at the end of `useForm`
(src/src/form.ts lines 278-280): `if (state.exception !== undefined) throw
state.exception; return context`. -/
def readContextSrc {V E : Type} (s : FormStateSrc V E) :
    Except (FormExc E) (FormStateSrc V E) :=
  match s.exception with
  | some e => Except.error e
  | none => Except.ok s

/-! ### The orchestrator revision of src/unnamed/part_010 (lines 75-251).
In this revision both `validate` and `submit` run inside
`mutex.runExclusive`, and `submit` prefers `options.submitValidate` over
`options.validate`. -/

/-- The slice of the form state (the `FormInternalState` of src/src/state.ts,
which this revision imports) read and written by the `submit` of
src/unnamed/part_010 lines 130-168. -/
structure FormStateP10 (V E : Type) where
  value : V
  errors : List FormError
  isValid : Option Bool
  submittedValue : Option V
  submitCount : Nat
  exception : Option E
  lastSubmitStarted : Option Nat
  lastSubmitCompleted : Option Nat
  lastSubmitted : Option Nat

/-- The options consumed by the part_010 orchestrator (the options.ts
revision with `submitValidate`). -/
structure FormOptionsP10 (V E : Type) where
  validate : Option (V → Except E (Option (List FormError)))
  submitValidate : Option (V → Except E (Option (List FormError)))
  submit : V → Except E (Option (List FormError))

/-- `options.submitValidate ?? options.validate` (part_010 line 136). -/
def chosenValidateP10 {V E : Type} (opts : FormOptionsP10 V E) :
    Option (V → Except E (Option (List FormError))) :=
  match opts.submitValidate with
  | some f => some f
  | none => opts.validate

/-- The tail of the part_010 `submit` once validation has passed (or no
validate function is chosen), per lines 143-167: run the submit function;
on a throw store the exception; otherwise patch `errors` and `isValid`, and
if the errors are empty advance `lastSubmitted`, `submitCount` and
`submittedValue`; `finally` stamps `lastSubmitCompleted`. -/
def submitRunP10 {V E : Type} (opts : FormOptionsP10 V E) (s0 : FormStateP10 V E)
    (now : Nat) : FormStateP10 V E × Bool × Bool :=
  match opts.submit s0.value with
  | Except.error e =>
    ({ s0 with exception := some e, lastSubmitCompleted := some now }, true, false)
  | Except.ok eo =>
    let errs := eo.getD []
    let s1 := { s0 with errors := errs, isValid := some (decide (errs.length = 0)) }
    if errs.length = 0 then
      ({ s1 with lastSubmitted := some now, submitCount := s1.submitCount + 1,
                 submittedValue := some s1.value, lastSubmitCompleted := some now },
       true, true)
    else
      ({ s1 with lastSubmitCompleted := some now }, true, false)

/-- The body of `submit` from src/unnamed/part_010 lines 130-168 (the body
handed to `mutex.runExclusive`), as a state transformer.  The first `Bool`
of the result records whether the caller-supplied submit function was
invoked; the second is the returned success flag (`errors.length === 0`,
or `false` from the catch block). -/
def submitExecP10 {V E : Type} (opts : FormOptionsP10 V E) (s : FormStateP10 V E)
    (now : Nat) : FormStateP10 V E × Bool × Bool :=
  let s0 := { s with lastSubmitStarted := some now }
  match chosenValidateP10 opts with
  | none => submitRunP10 opts s0 now
  | some f =>
    match f s.value with
    | Except.error e =>
      ({ s0 with exception := some e, lastSubmitCompleted := some now }, false, false)
    | Except.ok eo =>
      let verrs := eo.getD []
      if verrs.length = 0 then submitRunP10 opts s0 now
      else
        ({ s0 with errors := verrs, isValid := some (decide (verrs.length = 0)),
                   lastSubmitCompleted := some now }, false, false)

/-! ### The orchestrator revision of src/unnamed/part_007. -/

/-- The slice of the form state (the state.ts revision of
src/unnamed/part_013 / part_014, which this revision imports) read and
written by the `doSubmit` of src/unnamed/part_007 lines 154-186. -/
structure FormStateP007 (V E : Type) where
  value : V
  errors : Option (List FormError)
  exception : Option E
  lastSubmitted : Option Nat
  lastSubmitValue : Option V
  lastSubmitResult : Option Bool
  submitCount : Nat

/-- The error post-processing of the part_007 `doSubmit` (lines 159-164):
`buildErrors(results).map(error => ({ ...error, temporary: error.temporary ?? true }))`. -/
def part007SubmitErrors (results : FormErrorInput) : List FormError :=
  (buildErrors results).map fun e => { e with temporary := some (e.temporary.getD true) }

/-- `doSubmit` of src/unnamed/part_007 lines 154-186, as a state
transformer: run the submit function on the captured value; on a throw
store the exception; otherwise store `lastSubmitted`, `lastSubmitValue`,
`lastSubmitResult`, bump `submitCount`, and store the post-processed
errors. -/
def doSubmitExecP007 {V E : Type} (submitFn : V → Except E FormErrorInput)
    (s : FormStateP007 V E) (now : Nat) : FormStateP007 V E :=
  match submitFn s.value with
  | Except.error e => { s with exception := some e }
  | Except.ok results =>
    let errors := part007SubmitErrors results
    { s with lastSubmitted := some now, lastSubmitValue := some s.value,
             lastSubmitResult := some (decide (errors.length = 0)),
             submitCount := s.submitCount + 1, errors := some errors }

/-! ### Concurrency models for the validate/submit gate.

The engine is single-threaded; "concurrency" is the temporal overlap of the
awaited caller-supplied validate/submit functions.  A body is *in flight*
from the moment the orchestrator starts executing it until its awaited
caller function resolves and its state patches are applied.

Two small transition systems capture the two orchestrator revisions:

* `GateStep` models src/unnamed/part_010, where every validate and submit
  body is passed to `mutex.runExclusive` (lines 93 and 132): a queued body
  starts only when no other body is running (the async-mutex admits a
  waiter only when the lock is free), and a running body eventually
  completes and releases the gate.
* `SrcStep` models src/src/form.ts, where only `doSubmit` wraps its body in
  `mutex.runExclusive` (line 93) while `doValidate` (lines 58-88) is
  invoked directly by the effect on `lastValidateRequested`
  (lines 168-175) with no gate at all: a validate body starts
  unconditionally. -/

/-- Configuration of the part_010 gate: how many validate/submit bodies are
queued behind the mutex, how many are currently executing, and how many
have completed. -/
structure GateCfg where
  waiting : Nat
  running : Nat
  done : Nat
deriving DecidableEq, Repr

/-- Transitions of the part_010 gate (both validate and submit bodies go
through `mutex.runExclusive`). -/
inductive GateStep : GateCfg → GateCfg → Prop where
  | request (c : GateCfg) :
      GateStep c ⟨c.waiting + 1, c.running, c.done⟩
  | acquire (c : GateCfg) (hfree : c.running = 0) (hq : 0 < c.waiting) :
      GateStep c ⟨c.waiting - 1, c.running + 1, c.done⟩
  | complete (c : GateCfg) (hrun : 0 < c.running) :
      GateStep c ⟨c.waiting, c.running - 1, c.done + 1⟩

/-- Configuration of the src/src/form.ts orchestrator: validate bodies in
flight and completed, submit bodies queued on the mutex, executing and
completed. -/
structure SrcCfg where
  vrunning : Nat
  vdone : Nat
  swaiting : Nat
  srunning : Nat
  sdone : Nat
deriving DecidableEq, Repr

/-- Transitions of the src/src/form.ts orchestrator: `startValidate` has no
guard because `doValidate` does not touch the mutex; submit bodies go
through `mutex.runExclusive` as in the gate model. -/
inductive SrcStep : SrcCfg → SrcCfg → Prop where
  | startValidate (c : SrcCfg) :
      SrcStep c ⟨c.vrunning + 1, c.vdone, c.swaiting, c.srunning, c.sdone⟩
  | finishValidate (c : SrcCfg) (h : 0 < c.vrunning) :
      SrcStep c ⟨c.vrunning - 1, c.vdone + 1, c.swaiting, c.srunning, c.sdone⟩
  | requestSubmit (c : SrcCfg) :
      SrcStep c ⟨c.vrunning, c.vdone, c.swaiting + 1, c.srunning, c.sdone⟩
  | acquireSubmit (c : SrcCfg) (hfree : c.srunning = 0) (hq : 0 < c.swaiting) :
      SrcStep c ⟨c.vrunning, c.vdone, c.swaiting - 1, c.srunning + 1, c.sdone⟩
  | finishSubmit (c : SrcCfg) (h : 0 < c.srunning) :
      SrcStep c ⟨c.vrunning, c.vdone, c.swaiting, c.srunning - 1, c.sdone + 1⟩

/-- Reflexive-transitive reachability for a step relation. -/
inductive Reaches {α : Type} (step : α → α → Prop) : α → α → Prop where
  | refl (a : α) : Reaches step a a
  | tail {a b c : α} : Reaches step a b → step b c → Reaches step a c

/-! ### Concrete instances used by counterexamples and witnesses -/

/-- A form state of the src/src revision holding one blocking error while
`isValid` is still `undefined` (exactly what `doValidate` of src/src/form.ts
produces, since it patches `errors` but never `isValid`). -/
def c5State : FormStateSrc Nat Unit :=
  { value := 0, initializedValue := 0,
    errors := [{ message := "required", path := none, temporary := none }],
    isValid := none, submittedValue := none, submitCount := 0, exception := none,
    lastValidated := none, lastValidateStarted := none, lastSubmitted := none,
    isSubmitting := none, validateRequests := 0 }

/-- Options for the src/src `doSubmit` whose submit function returns one
error with no explicit `temporary` flag. -/
def c6Opts : FormOptionsSrc Nat Unit :=
  { validate := none,
    submit := fun _ =>
      Except.ok (some [{ message := "duplicate", path := none, temporary := none }]),
    disabled := false }

/-- A fresh src/src form state. -/
def c6State : FormStateSrc Nat Unit :=
  { value := 0, initializedValue := 0, errors := [], isValid := none,
    submittedValue := none, submitCount := 0, exception := none,
    lastValidated := none, lastValidateStarted := none, lastSubmitted := none,
    isSubmitting := none, validateRequests := 0 }

/-- A validate function that always returns one blocking error. -/
def w3ValidateFn : Nat → Except Unit (Option (List FormError)) :=
  fun _ => Except.ok (some [{ message := "required", path := none, temporary := none }])

/-- src/src options whose validate function always fails with a blocking error. -/
def w3OptsSrc : FormOptionsSrc Nat Unit :=
  { validate := some w3ValidateFn, submit := fun _ => Except.ok none, disabled := false }

/-- A fresh src/src form state for the submit-gating witness. -/
def w3StateSrc : FormStateSrc Nat Unit :=
  { value := 0, initializedValue := 0, errors := [], isValid := none,
    submittedValue := none, submitCount := 0, exception := none,
    lastValidated := none, lastValidateStarted := none, lastSubmitted := none,
    isSubmitting := none, validateRequests := 0 }

/-- part_010 options whose `submitValidate` always fails with a blocking error. -/
def w3OptsP10 : FormOptionsP10 Nat Unit :=
  { validate := none, submitValidate := some w3ValidateFn,
    submit := fun _ => Except.ok none }

/-- A fresh part_010 form state for the submit-gating witness. -/
def w3StateP10 : FormStateP10 Nat Unit :=
  { value := 0, errors := [], isValid := none, submittedValue := none,
    submitCount := 0, exception := none, lastSubmitStarted := none,
    lastSubmitCompleted := none, lastSubmitted := none }

/-- A part_007 submit function returning one error with no explicit
`temporary` flag. -/
def w6SubmitFn : Nat → Except Unit FormErrorInput :=
  fun _ => Except.ok (FormErrorInput.item
    (FormErrorInputItem.err { message := "dup", path := none, temporary := none }))

/-- A fresh part_007 form state. -/
def w6StateP007 : FormStateP007 Nat Unit :=
  { value := 0, errors := none, exception := none, lastSubmitted := none,
    lastSubmitValue := none, lastSubmitResult := none, submitCount := 0 }

/-- src/src options whose validate function throws. -/
def w8OptsThrowingValidate : FormOptionsSrc Nat String :=
  { validate := some (fun _ => Except.error "validate blew up"),
    submit := fun _ => Except.ok none, disabled := false }

/-- src/src options whose submit function throws (no validate function). -/
def w8OptsThrowingSubmit : FormOptionsSrc Nat String :=
  { validate := none, submit := fun _ => Except.error "submit blew up",
    disabled := false }

/-- A fresh src/src form state that can submit (`isValid` undefined). -/
def w8StateSrc : FormStateSrc Nat String :=
  { value := 0, initializedValue := 0, errors := [], isValid := none,
    submittedValue := none, submitCount := 0, exception := none,
    lastValidated := none, lastValidateStarted := none, lastSubmitted := none,
    isSubmitting := none, validateRequests := 0 }

/-! ### Theorems -/

/-- Claim C1: error slicing round-trip.  For every error set `E` and path
`p`, descending `E` along `p` with `descendErrors` (errors.ts lines 74-76)
and ascending the result back through a child field's `setErrors`
(field.ts lines 453-463, which prefixes each path with `operator.path`)
yields a set containing every error of `E` whose path starts with `p`, with
its path restored exactly to its original root-relative value
(`e.path ?? []`). -/
theorem error_slicing_round_trip (E : List FormError) (p : FormErrorPath) (e : FormError)
    (he : e ∈ E) (hp : (e.path.getD []).take p.length = p) :
    { e with path := some (e.path.getD []) } ∈ setErrorsAscend (some p) (descendErrors E p) := by
  have hpd : p ++ (e.path.getD []).drop p.length = e.path.getD [] := by
    conv_rhs => rw [← List.take_append_drop p.length (e.path.getD []), hp]
  unfold setErrorsAscend descendErrors
  refine List.mem_map.mpr ⟨{ e with path := some ((e.path.getD []).drop p.length) }, ?_, ?_⟩
  · exact List.mem_map.mpr ⟨e, List.mem_filter.mpr ⟨he, by simp [hp]⟩, rfl⟩
  · simp [hpd]

/-- Witness for C1: the round-trip theorem applied to the concrete error
set `[{message := "m", path := ["a","b"]}]` and path `["a"]`. -/
theorem error_slicing_round_trip_witness :
    (⟨"m", some [PathSeg.str "a", PathSeg.str "b"], none⟩ : FormError) ∈
      [(⟨"m", some [PathSeg.str "a", PathSeg.str "b"], none⟩ : FormError)]
    ∧ (((⟨"m", some [PathSeg.str "a", PathSeg.str "b"], none⟩ : FormError).path.getD
          []).take ([PathSeg.str "a"] : FormErrorPath).length = [PathSeg.str "a"])
    ∧ ({ (⟨"m", some [PathSeg.str "a", PathSeg.str "b"], none⟩ : FormError) with
          path := some ((⟨"m", some [PathSeg.str "a", PathSeg.str "b"], none⟩ :
            FormError).path.getD []) } ∈
        setErrorsAscend (some [PathSeg.str "a"])
          (descendErrors [⟨"m", some [PathSeg.str "a", PathSeg.str "b"], none⟩]
            [PathSeg.str "a"])) :=
  ⟨by decide, by decide,
    error_slicing_round_trip _ _ _ (by decide) (by decide)⟩

/-- Claim C4 (code bug): the `path` assembled by `doPipe` for a derived
field (field.ts line 465) spreads the parent's path twice and ignores the
operator's path contribution, so `root.prop("a").prop("b")` (operator paths
`["a"]` and `["b"]` per `FormField.prop`, lines 483-488) has path `[]`
rather than the `["a","b"]` the claim states. -/
theorem doPipe_path_ignores_prop_segments :
    doPipePath (doPipePath [] (propOperatorPath "a")) (propOperatorPath "b") = []
    ∧ doPipePath (doPipePath [] (propOperatorPath "a")) (propOperatorPath "b")
        ≠ [PathSeg.str "a", PathSeg.str "b"] := by
  exact ⟨rfl, by decide⟩

/-- Claim C5 (amended): the `canSubmit` of src/unnamed/part_013 line 93
(also part_013 line 209 and part_014 line 84),
`!(state.errors ?? []).some(_ => _.temporary !== true)`, is `true` exactly
when every error in the state's error collection has `temporary = true`,
i.e. when no blocking error remains. -/
theorem canSubmit_iff_no_blocking_error_p013 (errors : Option (List FormError)) :
    canSubmitP013 errors = true ↔ ∀ e ∈ errors.getD [], e.temporary = some true := by
  unfold canSubmitP013
  simp [List.any_eq_true]

/-- Counterexample for C5 as stated: in the primary state derivation
(src/src/state.ts line 83) `canSubmit` is `state.isValid !== false`, so a
state holding a blocking error while `isValid` is still `undefined` has
`canSubmit = true` even though an error with `temporary !== true` is
present — the claimed biconditional fails on that derivation. -/
theorem canSubmit_claim_fails_on_src_state :
    canSubmitSrc c5State = true
    ∧ (c5State.errors.any fun e => decide (e.temporary ≠ some true)) = true := by
  exact ⟨rfl, rfl⟩

/-- Claim C7: a field derived through a path-less (bare function) operator
performs no path-based slicing.  `doPipe` wraps a bare function as
`{ operator }` with no `path`, so the child's errors are
`descendErrors(parent.errors ?? [], [])`: every parent error is kept, in
order, with message and temporary flag untouched and its root-relative path
value (`path ?? []`) unchanged. -/
theorem pathless_operator_passes_errors_through (E : List FormError) :
    doPipeErrors (some E) none = E.map fun e => { e with path := some (e.path.getD []) } := by
  unfold doPipeErrors descendErrors
  simp

/-- Claim C10: the derived `isValidating` flag of the primary state
derivation (src/src/state.ts line 108) compares `lastValidateStarted` with
itself, so it is `false` for every form state. -/
theorem isValidating_always_false {V E : Type} (s : FormStateSrc V E) :
    isValidatingSrc s = false := by
  simp [isValidatingSrc]

/-- Claim C9: lens round-trip for `prop(k)` (ramda `lensProp` as used by
`FormField.prop`, field.ts lines 483-488, read/written through `view`/`set`
in `doPipe`, lines 444-451): set-then-view returns the value just set, and
setting back the value just viewed is a no-op. -/
theorem prop_lens_round_trip {V : Type} (r : JsRecord V) (k : String) (v : V) :
    viewProp k (setProp k v r) = v ∧ setProp k (viewProp k r) r = r := by
  constructor
  · simp [viewProp, setProp]
  · funext kk
    unfold setProp viewProp
    by_cases h : kk = k <;> simp [h]

/-- Claim C3: submit gating.  In both submit orchestrations — `doSubmit` of
src/src/form.ts lines 92-154 and `submit` of src/unnamed/part_010
lines 130-168 (where `submitValidate ?? validate` is used) — if the chosen
validate function returns at least one non-temporary error, the
caller-supplied submit function is never invoked and `submittedValue` and
`lastSubmitted` are left unchanged; moreover (last two conjuncts) whenever
the submit function *is* invoked, the chosen validate function, if any,
returned an empty error set first — validation strictly precedes and gates
the submit call. -/
theorem submit_gating
    {V E : Type}
    (optsS : FormOptionsSrc V E) (sS : FormStateSrc V E) (nowS : Nat)
    (fS : V → Except E (Option (List FormError)))
    (hfS : optsS.validate = some fS)
    (eoS : Option (List FormError)) (hrS : fS sS.value = Except.ok eoS)
    (hneS : ∃ err ∈ eoS.getD [], err.temporary ≠ some true)
    (optsP : FormOptionsP10 V E) (sP : FormStateP10 V E) (nowP : Nat)
    (fP : V → Except E (Option (List FormError)))
    (hfP : chosenValidateP10 optsP = some fP)
    (eoP : Option (List FormError)) (hrP : fP sP.value = Except.ok eoP)
    (hneP : ∃ err ∈ eoP.getD [], err.temporary ≠ some true) :
    (doSubmitExec optsS sS nowS).2 = false
    ∧ (doSubmitExec optsS sS nowS).1.submittedValue = sS.submittedValue
    ∧ (doSubmitExec optsS sS nowS).1.lastSubmitted = sS.lastSubmitted
    ∧ (submitExecP10 optsP sP nowP).2.1 = false
    ∧ (submitExecP10 optsP sP nowP).1.submittedValue = sP.submittedValue
    ∧ (submitExecP10 optsP sP nowP).1.lastSubmitted = sP.lastSubmitted
    ∧ (∀ o : FormOptionsSrc V E, ∀ s : FormStateSrc V E, ∀ n : Nat,
        (doSubmitExec o s n).2 = true → ∀ g, o.validate = some g →
          ∃ eo, g s.value = Except.ok eo ∧ (eo.getD []).length = 0)
    ∧ (∀ o : FormOptionsP10 V E, ∀ s : FormStateP10 V E, ∀ n : Nat,
        (submitExecP10 o s n).2.1 = true → ∀ g, chosenValidateP10 o = some g →
          ∃ eo, g s.value = Except.ok eo ∧ (eo.getD []).length = 0) := by
  have hlenS : ¬ (eoS.getD []).length = 0 := by
    obtain ⟨err, hm, _⟩ := hneS
    simpa [List.length_eq_zero] using List.ne_nil_of_mem hm
  have hlenP : ¬ (eoP.getD []).length = 0 := by
    obtain ⟨err, hm, _⟩ := hneP
    simpa [List.length_eq_zero] using List.ne_nil_of_mem hm
  have hsrc : (doSubmitExec optsS sS nowS).2 = false
      ∧ (doSubmitExec optsS sS nowS).1.submittedValue = sS.submittedValue
      ∧ (doSubmitExec optsS sS nowS).1.lastSubmitted = sS.lastSubmitted := by
    by_cases hcs : canSubmitSrc sS = false
    · simp [doSubmitExec, hcs]
    · by_cases hd : optsS.disabled = true
      · simp [doSubmitExec, hcs, hd]
      · simp [doSubmitExec, hcs, hd, hfS, hrS, hlenS]
  have hp10 : (submitExecP10 optsP sP nowP).2.1 = false
      ∧ (submitExecP10 optsP sP nowP).1.submittedValue = sP.submittedValue
      ∧ (submitExecP10 optsP sP nowP).1.lastSubmitted = sP.lastSubmitted := by
    simp [submitExecP10, hfP, hrP, hlenP]
  have horderS : ∀ o : FormOptionsSrc V E, ∀ s : FormStateSrc V E, ∀ n : Nat,
      (doSubmitExec o s n).2 = true → ∀ g, o.validate = some g →
        ∃ eo, g s.value = Except.ok eo ∧ (eo.getD []).length = 0 := by
    intro o s n hcall g hg
    by_cases hcs : canSubmitSrc s = false
    · simp [doSubmitExec, hcs] at hcall
    · by_cases hd : o.disabled = true
      · simp [doSubmitExec, hcs, hd] at hcall
      · cases hv : g s.value with
        | error e => simp [doSubmitExec, hcs, hd, hg, hv] at hcall
        | ok eo =>
          by_cases hlen : (eo.getD []).length = 0
          · exact ⟨eo, rfl, hlen⟩
          · simp [doSubmitExec, hcs, hd, hg, hv, hlen] at hcall
  have horderP : ∀ o : FormOptionsP10 V E, ∀ s : FormStateP10 V E, ∀ n : Nat,
      (submitExecP10 o s n).2.1 = true → ∀ g, chosenValidateP10 o = some g →
        ∃ eo, g s.value = Except.ok eo ∧ (eo.getD []).length = 0 := by
    intro o s n hcall g hg
    cases hv : g s.value with
    | error e => simp [submitExecP10, hg, hv] at hcall
    | ok eo =>
      by_cases hlen : (eo.getD []).length = 0
      · exact ⟨eo, rfl, hlen⟩
      · simp [submitExecP10, hg, hv, hlen] at hcall
  exact ⟨hsrc.1, hsrc.2.1, hsrc.2.2, hp10.1, hp10.2.1, hp10.2.2, horderS, horderP⟩

/-- Witness for C3: the gating theorem applied to concrete forms whose
validate (src/src) and submitValidate (part_010) always return one blocking
error. -/
theorem submit_gating_witness :
    w3OptsSrc.validate = some w3ValidateFn
    ∧ w3ValidateFn w3StateSrc.value =
        Except.ok (some [{ message := "required", path := none, temporary := none }])
    ∧ (∃ err ∈ (some [{ message := "required", path := none, temporary := none }] :
          Option (List FormError)).getD [], err.temporary ≠ some true)
    ∧ chosenValidateP10 w3OptsP10 = some w3ValidateFn
    ∧ (doSubmitExec w3OptsSrc w3StateSrc 1).2 = false
    ∧ (doSubmitExec w3OptsSrc w3StateSrc 1).1.submittedValue = w3StateSrc.submittedValue
    ∧ (doSubmitExec w3OptsSrc w3StateSrc 1).1.lastSubmitted = w3StateSrc.lastSubmitted
    ∧ (submitExecP10 w3OptsP10 w3StateP10 1).2.1 = false
    ∧ (submitExecP10 w3OptsP10 w3StateP10 1).1.submittedValue = w3StateP10.submittedValue
    ∧ (submitExecP10 w3OptsP10 w3StateP10 1).1.lastSubmitted = w3StateP10.lastSubmitted := by
  have h := submit_gating w3OptsSrc w3StateSrc 1 w3ValidateFn rfl
    (some [{ message := "required", path := none, temporary := none }]) rfl (by decide)
    w3OptsP10 w3StateP10 1 w3ValidateFn rfl
    (some [{ message := "required", path := none, temporary := none }]) rfl (by decide)
  exact ⟨rfl, rfl, by decide, rfl, h.1, h.2.1, h.2.2.1, h.2.2.2.1, h.2.2.2.2.1,
    h.2.2.2.2.2.1⟩

/-- Claim C6 (amended): in the `doSubmit` of src/unnamed/part_007
(lines 154-186), every error returned by the caller-supplied submit
function that does not explicitly set its `temporary` flag is stored into
the form state with `temporary = true`. -/
theorem p007_submit_errors_default_temporary
    {V E : Type} (submitFn : V → Except E FormErrorInput)
    (s : FormStateP007 V E) (now : Nat) (results : FormErrorInput)
    (hres : submitFn s.value = Except.ok results)
    (e : FormError) (he : e ∈ buildErrors results) (ht : e.temporary = none) :
    { e with temporary := some true } ∈
      ((doSubmitExecP007 submitFn s now).errors.getD []) := by
  simp [doSubmitExecP007, hres, part007SubmitErrors]
  exact ⟨e, he, by simp [ht]⟩

/-- Witness for C6's amended theorem: one error `{message := "dup"}` with no
`temporary` flag, returned by the part_007 submit path, is stored with
`temporary = true`. -/
theorem p007_submit_errors_default_temporary_witness :
    w6SubmitFn w6StateP007.value = Except.ok (FormErrorInput.item
      (FormErrorInputItem.err { message := "dup", path := none, temporary := none }))
    ∧ ({ message := "dup", path := none, temporary := none } : FormError) ∈
        buildErrors (FormErrorInput.item
          (FormErrorInputItem.err { message := "dup", path := none, temporary := none }))
    ∧ ({ message := "dup", path := none, temporary := none } : FormError).temporary = none
    ∧ ({ ({ message := "dup", path := none, temporary := none } : FormError) with
          temporary := some true } ∈
        ((doSubmitExecP007 w6SubmitFn w6StateP007 1).errors.getD [])) := by
  refine ⟨rfl, by decide, rfl, ?_⟩
  exact p007_submit_errors_default_temporary w6SubmitFn w6StateP007 1 _ rfl _ (by decide) rfl

/-- Counterexample for C6 as stated: the `doSubmit` of src/src/form.ts
(lines 107-133) stores the errors returned by the submit function without
any `temporary` defaulting, so an error returned without the flag is stored
with `temporary` still unset — not `true` as the claim requires of every
submit-path error. -/
theorem src_submit_errors_not_marked_temporary :
    (doSubmitExec c6Opts c6State 1).1.errors =
      [{ message := "duplicate", path := none, temporary := none }]
    ∧ ∀ e ∈ (doSubmitExec c6Opts c6State 1).1.errors, e.temporary ≠ some true := by
  exact ⟨by decide, by decide⟩

/-- Claim C8: exception capture and re-throw.  A throw inside the
caller-supplied validate function is caught by `doValidate`
(src/src/form.ts lines 71-78) and stored into the state's `exception` slot,
and a throw inside the submit function (reached when validation passes or
is absent) is caught by `doSubmit` (lines 136-143) and stored likewise; in
both cases the next read of the form context (lines 278-280) re-throws
exactly that exception. -/
theorem exceptions_captured_and_rethrown
    {V E : Type}
    (opts : FormOptionsSrc V E) (s : FormStateSrc V E) (req : Int) (now : Nat)
    (f : V → Except E (Option (List FormError))) (e : E)
    (hf : opts.validate = some f) (hthrow : f s.value = Except.error e)
    (opts2 : FormOptionsSrc V E) (s2 : FormStateSrc V E) (now2 : Nat) (e2 : E)
    (hcs : canSubmitSrc s2 = true) (hdis : opts2.disabled = false)
    (hval : opts2.validate = none ∨
      ∃ g eo, opts2.validate = some g ∧ g s2.value = Except.ok eo ∧ (eo.getD []).length = 0)
    (hsub : opts2.submit s2.value = Except.error e2) :
    (doValidateExec opts s req now).exception = some (FormExc.caller e)
    ∧ readContextSrc (doValidateExec opts s req now) = Except.error (FormExc.caller e)
    ∧ (doSubmitExec opts2 s2 now2).1.exception = some (FormExc.caller e2)
    ∧ readContextSrc (doSubmitExec opts2 s2 now2).1 = Except.error (FormExc.caller e2) := by
  have h1 : (doValidateExec opts s req now).exception = some (FormExc.caller e) := by
    simp [doValidateExec, hf, hthrow]
  have h2 : (doSubmitExec opts2 s2 now2).1.exception = some (FormExc.caller e2) := by
    rcases hval with hnone | ⟨g, eo, hg, hok, hlen⟩
    · simp [doSubmitExec, hcs, hdis, hnone, doSubmitRunSrc, hsub]
    · simp [doSubmitExec, hcs, hdis, hg, hok, hlen, doSubmitRunSrc, hsub]
  refine ⟨h1, ?_, h2, ?_⟩
  · simp [readContextSrc, h1]
  · simp [readContextSrc, h2]

/-- Witness for C8: concrete validate and submit functions that throw the
strings "validate blew up" and "submit blew up"; both land in the exception
slot and are re-thrown on the next context read. -/
theorem exceptions_captured_and_rethrown_witness :
    w8OptsThrowingValidate.validate = some (fun _ => Except.error "validate blew up")
    ∧ canSubmitSrc w8StateSrc = true
    ∧ w8OptsThrowingSubmit.disabled = false
    ∧ w8OptsThrowingSubmit.validate = none
    ∧ (doValidateExec w8OptsThrowingValidate w8StateSrc 0 1).exception =
        some (FormExc.caller "validate blew up")
    ∧ readContextSrc (doValidateExec w8OptsThrowingValidate w8StateSrc 0 1) =
        Except.error (FormExc.caller "validate blew up")
    ∧ (doSubmitExec w8OptsThrowingSubmit w8StateSrc 1).1.exception =
        some (FormExc.caller "submit blew up")
    ∧ readContextSrc (doSubmitExec w8OptsThrowingSubmit w8StateSrc 1).1 =
        Except.error (FormExc.caller "submit blew up") := by
  have h := exceptions_captured_and_rethrown w8OptsThrowingValidate w8StateSrc 0 1
    (fun _ => Except.error "validate blew up") "validate blew up" rfl rfl
    w8OptsThrowingSubmit w8StateSrc 1 "submit blew up" rfl rfl (Or.inl rfl) rfl
  exact ⟨rfl, rfl, rfl, rfl, h.1, h.2.1, h.2.2.1, h.2.2.2⟩

/-- Claim C2 (amended): in the src/unnamed/part_010 orchestrator every
validate and submit body runs inside `mutex.runExclusive`, so in every
reachable configuration of the gate at most one body is executing, and no
step ever drops a queued, running, or completed body (the task count never
decreases) — later requests queue behind the in-flight body. -/
theorem p010_gate_serializes :
    (∀ c : GateCfg, Reaches GateStep ⟨0, 0, 0⟩ c → c.running ≤ 1)
    ∧ (∀ c cc : GateCfg, GateStep c cc →
        c.waiting + c.running + c.done ≤ cc.waiting + cc.running + cc.done) := by
  constructor
  · intro c h
    induction h with
    | refl => decide
    | tail hab hbc ih =>
      cases hbc with
      | request => simpa using ih
      | acquire hfree hq => simp [hfree]
      | complete hrun => exact le_trans (Nat.sub_le _ _) ih
  · intro c cc h
    cases h <;> simp <;> omega

/-- Witness for C2's amended theorem: the invariant applied to the
configuration reached by a single request. -/
theorem p010_gate_serializes_witness :
    Reaches GateStep ⟨0, 0, 0⟩ ⟨1, 0, 0⟩ ∧ GateCfg.running ⟨1, 0, 0⟩ ≤ 1 := by
  have hreach : Reaches GateStep ⟨0, 0, 0⟩ ⟨1, 0, 0⟩ :=
    Reaches.tail (Reaches.refl _) (GateStep.request ⟨0, 0, 0⟩)
  exact ⟨hreach, p010_gate_serializes.1 ⟨1, 0, 0⟩ hreach⟩

/-- Counterexample for C2 as stated: in src/src/form.ts only `doSubmit`
runs inside `mutex.runExclusive` (line 93); `doValidate` (lines 58-88) is
invoked directly by the effect on `lastValidateRequested` (lines 168-175)
with no gate, so firing `validate()` twice while the first validate
function is still pending reaches a configuration with two validate bodies
in flight at once — violating "at most one of {validate body, submit body}
is executing at any time". -/
theorem src_two_validate_bodies_in_flight :
    Reaches SrcStep ⟨0, 0, 0, 0, 0⟩ ⟨2, 0, 0, 0, 0⟩
    ∧ ¬ (SrcCfg.vrunning ⟨2, 0, 0, 0, 0⟩ ≤ 1) := by
  refine ⟨?_, by decide⟩
  have h1 : SrcStep ⟨0, 0, 0, 0, 0⟩ ⟨1, 0, 0, 0, 0⟩ :=
    SrcStep.startValidate ⟨0, 0, 0, 0, 0⟩
  have h2 : SrcStep ⟨1, 0, 0, 0, 0⟩ ⟨2, 0, 0, 0, 0⟩ :=
    SrcStep.startValidate ⟨1, 0, 0, 0, 0⟩
  exact Reaches.tail (Reaches.tail (Reaches.refl _) h1) h2
